import Mathlib

/-!
Verification of the Forge-Reporter data-synchronization and OSCAL pipeline.

This development shallowly embeds the core of the repository:
* the sync orchestrator (`useSync` in `src/hooks/useAuth.ts`): `loadFromServer`,
  `saveToServer`, `fullSync`, guarded by the `syncInProgressRef` mutex flag;
* the field validator (`validateSSP` in `src/utils/validation`);
* the export-gating type guard (`isValidatedSSPData` in `src/types/index.ts`);
* the collection synchronizers, change detector, OSCAL importer and exporter,
  whose implementations are not part of the available sources and are modelled
  from the specification.

Network effects are embedded by explicit environments: each operation takes
the outcomes its network calls would produce and returns, along with its
result and the updated state, the ordered list of requests it issued.
-/

namespace ForgeReporter

/-! ## Data model: SSPData (from `src/types/index.ts`)

Scalar form fields are `Option String` (TypeScript `string | undefined`);
collections are `Option (List _)`. Only the fields consulted by the verified
components are carried. -/

structure InfoType where
  nistId : Option String := none
  name : Option String := none
  c : Option String := none
  i : Option String := none
  a : Option String := none
deriving DecidableEq, Repr

structure PPSRow where
  port : Option String := none
  proto : Option String := none
  svc : Option String := none
  purpose : Option String := none
  dir : Option String := none
  dit : Option String := none
deriving DecidableEq, Repr

structure CryptoModule where
  mod : Option String := none
  cert : Option String := none
  level : Option String := none
  usage : Option String := none
  location : Option String := none
deriving DecidableEq, Repr

structure SepDutyRow where
  role : Option String := none
  access : Option String := none
  prohibited : Option String := none
  justification : Option String := none
deriving DecidableEq, Repr

structure PolicyDoc where
  family : Option String := none
  title : Option String := none
  version : Option String := none
  owner : Option String := none
  lastReview : Option String := none
  status : Option String := none
deriving DecidableEq, Repr

structure SCRMSupplier where
  supplier : Option String := none
  type : Option String := none
  criticality : Option String := none
  sbom : Option String := none
  riskLevel : Option String := none
deriving DecidableEq, Repr

structure CMBaseline where
  comp : Option String := none
  bench : Option String := none
  ver : Option String := none
  pct : Option String := none
  scan : Option String := none
deriving DecidableEq, Repr

/-- One control entry of `ctrlData`: control id, implementation narrative,
implementation status. -/
structure CtrlEntry where
  ctrlId : String
  implementation : Option String := none
  status : Option String := none
deriving DecidableEq, Repr

structure SSPData where
  -- System Information
  sysName : Option String := none
  sysAcronym : Option String := none
  owningAgency : Option String := none
  sysDesc : Option String := none
  authType : Option String := none
  -- FIPS 199
  conf : Option String := none
  integ : Option String := none
  avail : Option String := none
  catJust : Option String := none
  -- Control Baseline
  ctrlBaseline : Option String := none
  baseJust : Option String := none
  -- RMF Lifecycle
  rmfCurrentStep : Option String := none
  -- Authorization Boundary / Data Flow / Network
  bndNarr : Option String := none
  dfNarr : Option String := none
  netNarr : Option String := none
  -- Crypto
  cryptoNarr : Option String := none
  -- Personnel
  soName : Option String := none
  soEmail : Option String := none
  aoName : Option String := none
  aoEmail : Option String := none
  issoName : Option String := none
  issoEmail : Option String := none
  issmName : Option String := none
  issmEmail : Option String := none
  scaName : Option String := none
  scaEmail : Option String := none
  poName : Option String := none
  poEmail : Option String := none
  -- Digital Identity
  ial : Option String := none
  aal : Option String := none
  idNarr : Option String := none
  -- SCRM
  scrmPlan : Option String := none
  -- Privacy
  ptaCollectsPii : Option String := none
  ptaPiaRequired : Option String := none
  -- Contingency Plan
  cpPurpose : Option String := none
  cpScope : Option String := none
  rto : Option String := none
  rpo : Option String := none
  -- Incident Response
  irPurpose : Option String := none
  irScope : Option String := none
  -- Configuration Management
  cmPurpose : Option String := none
  cmChangeNarr : Option String := none
  -- Continuous Monitoring
  iscmType : Option String := none
  iscmNarrative : Option String := none
  -- Controls
  ctrlData : List CtrlEntry := []
  -- Collections
  infoTypes : Option (List InfoType) := none
  ppsRows : Option (List PPSRow) := none
  cryptoMods : Option (List CryptoModule) := none
  sepDutyMatrix : Option (List SepDutyRow) := none
  policyDocs : Option (List PolicyDoc) := none
  scrmSuppliers : Option (List SCRMSupplier) := none
  cmBaselines : Option (List CMBaseline) := none
deriving DecidableEq, Repr

/-! ## Sync orchestrator (`useSync` in `src/hooks/useAuth.ts`) -/

inductive SyncStatus where
  | offline | idle | syncing | synced | dirty | error
deriving DecidableEq, Repr

/-- `SyncState` of the hook (`lastSyncedAt` timestamps are abstract ticks). -/
structure SyncState where
  status : SyncStatus
  lastSyncedAt : Option Nat
  sspId : Option String
  sspTitle : Option String
  error : Option String
  pendingChanges : Bool
deriving DecidableEq, Repr

/-- The orchestrator's full private state: the observable `SyncState`, the
change-detection baseline `previousDataRef`, and the mutex flag
`syncInProgressRef`. -/
structure OrchState where
  sync : SyncState
  previousData : Option SSPData
  syncInProgress : Bool
deriving DecidableEq, Repr

/-- The seven collection kinds, in the order `fullSync` schedules them. -/
inductive CollectionKind where
  | infoTypes | portsProtocols | cryptoModules | separationDuties
  | policyMappings | scrmEntries | cmBaselines
deriving DecidableEq, Repr

/-- The label string used in the partial-failure error message. -/
def CollectionKind.label : CollectionKind → String
  | .infoTypes => "infoTypes"
  | .portsProtocols => "portsProtocols"
  | .cryptoModules => "cryptoModules"
  | .separationDuties => "separationDuties"
  | .policyMappings => "policyMappings"
  | .scrmEntries => "scrmEntries"
  | .cmBaselines => "cmBaselines"

/-- Network operations the orchestrator can issue, recorded for the
single-flight and ordering claims. -/
inductive NetCall where
  | primarySave
  | subSync (kind : CollectionKind)
  | loadData
  | fetchTitle
deriving DecidableEq, Repr

/-- `data.xs?.length` truthiness test used by `fullSync` to decide whether a
collection synchronizer is scheduled. -/
def hasItems {α : Type} : Option (List α) → Bool
  | none => false
  | some l => l.length != 0

/-- The collection kinds `fullSync` actually schedules for `data`, in source
order: exactly the non-empty collections. -/
def activeKinds (data : SSPData) : List CollectionKind :=
  (if hasItems data.infoTypes then [CollectionKind.infoTypes] else []) ++
  (if hasItems data.ppsRows then [CollectionKind.portsProtocols] else []) ++
  (if hasItems data.cryptoMods then [CollectionKind.cryptoModules] else []) ++
  (if hasItems data.sepDutyMatrix then [CollectionKind.separationDuties] else []) ++
  (if hasItems data.policyDocs then [CollectionKind.policyMappings] else []) ++
  (if hasItems data.scrmSuppliers then [CollectionKind.scrmEntries] else []) ++
  (if hasItems data.cmBaselines then [CollectionKind.cmBaselines] else [])

/-- Environment for `fullSync`: the outcome of the primary
`saveSSPToBackend` call and of each collection synchronizer.
`none` means fulfilled; `some msg` means rejected with that message. -/
structure FullSyncEnv where
  saveResult : Option String
  subResult : CollectionKind → Option String

/-- `fullSync` from `src/hooks/useAuth.ts` (lines 668-744). Returns
(result, new state, issued network calls in order). The mutex branch
returns `false` without touching state or the network; otherwise the primary
save runs first, then the synchronizers of all non-empty collections are
scheduled and jointly awaited via `Promise.allSettled`; `failures` collects
every rejected label (no short-circuit). The baseline is updated only after
the primary save succeeded; the `finally` always releases the flag. -/
def fullSync (env : FullSyncEnv) (now : Nat) (data : SSPData)
    (st : OrchState) : Bool × OrchState × List NetCall :=
  if st.syncInProgress then (false, st, [])
  else
    let s1 : SyncState := { st.sync with status := .syncing, error := none }
    match env.saveResult with
    | some msg =>
        (false,
         { st with
            sync := { s1 with status := .error, error := some msg },
            syncInProgress := false },
         [NetCall.primarySave])
    | none =>
        let kinds := activeKinds data
        let failures := kinds.filter (fun k => (env.subResult k).isSome)
        let calls := NetCall.primarySave :: kinds.map NetCall.subSync
        let failMsg := "Sync partially failed for: " ++
          String.intercalate ", " (failures.map CollectionKind.label)
        let okSync : SyncState :=
          { s1 with status := .synced, lastSyncedAt := some now,
                    pendingChanges := false, error := none }
        let failSync : SyncState :=
          { s1 with status := .error, lastSyncedAt := some now,
                    pendingChanges := true, error := some failMsg }
        if failures.isEmpty then
          (true,
           { st with sync := okSync, previousData := some data,
                     syncInProgress := false },
           calls)
        else
          (false,
           { st with sync := failSync, previousData := some data,
                     syncInProgress := false },
           calls)

/-- `saveToServer` (lines 637-666): mutex skip returns `false`; on success the
baseline becomes `data` and the state is `synced` with a fresh timestamp; on
failure the state is `error` with the message and the baseline is untouched
(the `previousDataRef.current = data` line sits after the awaited save). -/
def saveToServer (saveResult : Option String) (now : Nat) (data : SSPData)
    (st : OrchState) : Bool × OrchState × List NetCall :=
  if st.syncInProgress then (false, st, [])
  else
    let s1 : SyncState := { st.sync with status := .syncing, error := none }
    let okSync : SyncState :=
      { s1 with status := .synced, lastSyncedAt := some now,
                pendingChanges := false, error := none }
    match saveResult with
    | none =>
        (true,
         { st with sync := okSync, previousData := some data,
                   syncInProgress := false },
         [NetCall.primarySave])
    | some msg =>
        (false,
         { st with
            sync := { s1 with status := .error, error := some msg },
            syncInProgress := false },
         [NetCall.primarySave])

/-- Environment for `loadFromServer`: outcome of `loadSSPFromBackend` and of
the follow-up title fetch. -/
structure LoadEnv where
  loadResult : Except String SSPData
  titleResult : Except String String

/-- `loadFromServer` (lines 601-635): mutex skip returns `null`; a load
failure sets `error` and returns `null`; on success the baseline is set,
the title fetched (`res.document?.title || 'Untitled SSP'`), and the state
replaced wholesale with `synced`. -/
def loadFromServer (env : LoadEnv) (now : Nat) (sspId : String)
    (st : OrchState) : Option SSPData × OrchState × List NetCall :=
  if st.syncInProgress then (none, st, [])
  else
    let s1 : SyncState := { st.sync with status := .syncing, error := none }
    match env.loadResult with
    | .error msg =>
        (none,
         { st with
            sync := { s1 with status := .error, error := some msg },
            syncInProgress := false },
         [NetCall.loadData])
    | .ok data =>
        match env.titleResult with
        | .error msg =>
            (none,
             { st with
                sync := { s1 with status := .error, error := some msg },
                previousData := some data,
                syncInProgress := false },
             [NetCall.loadData, NetCall.fetchTitle])
        | .ok title =>
            let t := if title == "" then "Untitled SSP" else title
            (some data,
             { st with
                sync := { status := .synced, lastSyncedAt := some now,
                          sspId := some sspId, sspTitle := some t,
                          error := none, pendingChanges := false },
                previousData := some data,
                syncInProgress := false },
             [NetCall.loadData, NetCall.fetchTitle])

/-! ### Concrete fixtures for witnesses and counterexamples -/

/-- An idle orchestrator: flag free, no baseline. -/
def stIdle : OrchState :=
  { sync := { status := .idle, lastSyncedAt := none, sspId := none,
              sspTitle := none, error := none, pendingChanges := false },
    previousData := none, syncInProgress := false }

/-- An orchestrator with an operation in flight (mutex flag held). -/
def stBusy : OrchState := { stIdle with syncInProgress := true }

/-- A record with a single non-empty collection. -/
def dataOneCollection : SSPData :=
  { infoTypes := some [{ nistId := some "C.2.8.1", name := some "Financial" }] }

/-- A small scalar-only record. -/
def dataScalar : SSPData := { sysName := some "ForgeTest System" }

/-- All network calls succeed. -/
def envAllOk : FullSyncEnv := { saveResult := none, subResult := fun _ => none }

/-- Primary save succeeds, the info-types sub-sync rejects. -/
def envInfoFails : FullSyncEnv :=
  { saveResult := none,
    subResult := fun k => if k = CollectionKind.infoTypes
      then some "500 Internal Server Error" else none }

/-- Primary save rejects. -/
def envSaveFails : FullSyncEnv :=
  { saveResult := some "Save failed", subResult := fun _ => none }

/-- Load environment that succeeds. -/
def envLoadOk : LoadEnv :=
  { loadResult := .ok dataScalar, titleResult := .ok "Test SSP" }

/-! ## C1: fullSync ordering, aggregation and status -/

/-- C1 (amended): with the mutex free, `fullSync` issues the primary save
first. If the save rejects, it returns `false` with status `error` carrying
the save's message, no collection synchronizer is invoked, and
`lastSyncedAt`, `pendingChanges` and the baseline are unchanged. If the save
succeeds, one collection synchronizer is scheduled per non-empty collection
(in source order) and every one is awaited to settlement: the failure list
collects all rejected kinds, never only the first. If some fail, `fullSync`
returns `false` with status `error` listing the failing kinds by name while
still recording `lastSyncedAt` and setting `pendingChanges`; if all succeed,
status becomes `synced` and it returns `true`. -/
theorem fullSync_contract (env : FullSyncEnv) (now : Nat) (data : SSPData)
    (st : OrchState) (hflag : st.syncInProgress = false) :
    (fullSync env now data st).2.2.head? = some NetCall.primarySave ∧
    (∀ msg, env.saveResult = some msg →
      fullSync env now data st =
        (false,
         { st with
            sync := { st.sync with status := .error, error := some msg },
            syncInProgress := false },
         [NetCall.primarySave])) ∧
    (env.saveResult = none →
      (fullSync env now data st).2.2 =
        NetCall.primarySave :: (activeKinds data).map NetCall.subSync ∧
      (let failures :=
        (activeKinds data).filter (fun k => (env.subResult k).isSome)
       (failures = [] →
          fullSync env now data st =
            (true,
             { st with
                sync := { st.sync with
                          status := .synced,
                          lastSyncedAt := some now,
                          pendingChanges := false,
                          error := none },
                previousData := some data,
                syncInProgress := false },
             NetCall.primarySave :: (activeKinds data).map NetCall.subSync)) ∧
       (failures ≠ [] →
          fullSync env now data st =
            (false,
             { st with
                sync := { st.sync with
                          status := .error,
                          lastSyncedAt := some now,
                          pendingChanges := true,
                          error := some ("Sync partially failed for: " ++
                            String.intercalate ", "
                              (failures.map CollectionKind.label)) },
                previousData := some data,
                syncInProgress := false },
             NetCall.primarySave :: (activeKinds data).map NetCall.subSync)))) := by
  rcases env with ⟨sres, sub⟩
  cases sres with
  | some msg =>
      refine ⟨by simp [fullSync, hflag], ?_, by simp⟩
      intro m hm
      simp only [Option.some.injEq] at hm
      subst hm
      simp [fullSync, hflag]
  | none =>
      refine ⟨?_, by simp, ?_⟩
      · by_cases hfail :
          ((activeKinds data).filter (fun k => (sub k).isSome)) = []
        · simp [fullSync, hflag, hfail]
        · simp [fullSync, hflag, List.isEmpty_iff, hfail]
      · intro _
        by_cases hfail :
          ((activeKinds data).filter (fun k => (sub k).isSome)) = []
        · refine ⟨by simp [fullSync, hflag, hfail], ?_, ?_⟩
          · intro _; simp [fullSync, hflag, hfail]
          · intro hne; exact absurd hfail hne
        · refine ⟨by simp [fullSync, hflag, List.isEmpty_iff, hfail], ?_, ?_⟩
          · intro h; exact absurd h hfail
          · intro _; simp [fullSync, hflag, List.isEmpty_iff, hfail]

/-- Witness for `fullSync_contract` at a concrete input: mutex free, primary
save succeeds, the single scheduled sub-sync (info-types) rejects. -/
theorem fullSync_contract_witness :
    (fullSync envInfoFails 7 dataOneCollection stIdle).2.2.head? =
      some NetCall.primarySave :=
  (fullSync_contract envInfoFails 7 dataOneCollection stIdle rfl).1

/-- C1 counterexample: the claim says all seven collection synchronizers run
whenever the primary save succeeds, but with a record holding a single
non-empty collection the (successful) `fullSync` invokes exactly one
synchronizer and, e.g., never the ports/protocols one. -/
theorem fullSync_not_all_seven :
    (fullSync envAllOk 3 dataOneCollection stIdle).1 = true ∧
    (fullSync envAllOk 3 dataOneCollection stIdle).2.2 =
      [NetCall.primarySave, NetCall.subSync CollectionKind.infoTypes] ∧
    NetCall.subSync CollectionKind.portsProtocols ∉
      (fullSync envAllOk 3 dataOneCollection stIdle).2.2 := by
  refine ⟨rfl, rfl, by decide⟩

/-! ## C2: baseline update discipline -/

/-- C2 (amended): with the mutex free, `saveToServer` and `fullSync` update
the change-detection baseline to the attempted record exactly when the
primary save succeeds (for `fullSync` even if sub-syncs fail); when the
primary save rejects, the baseline is left unchanged. -/
theorem baseline_update_contract (envF : FullSyncEnv) (sres : Option String)
    (now : Nat) (data : SSPData) (st : OrchState)
    (hflag : st.syncInProgress = false) :
    ((sres = none →
        (saveToServer sres now data st).2.1.previousData = some data) ∧
     (∀ m, sres = some m →
        (saveToServer sres now data st).2.1.previousData = st.previousData)) ∧
    ((envF.saveResult = none →
        (fullSync envF now data st).2.1.previousData = some data) ∧
     (∀ m, envF.saveResult = some m →
        (fullSync envF now data st).2.1.previousData = st.previousData)) := by
  rcases envF with ⟨fres, sub⟩
  refine ⟨⟨?_, ?_⟩, ?_, ?_⟩
  · intro h; subst h; simp [saveToServer, hflag]
  · intro m h; subst h; simp [saveToServer, hflag]
  · intro h
    simp only at h
    subst h
    by_cases hfail :
        ((activeKinds data).filter (fun k => (sub k).isSome)) = [] <;>
      simp [fullSync, hflag, List.isEmpty_iff, hfail]
  · intro m h
    simp only at h
    subst h
    simp [fullSync, hflag]

/-- Witness for `baseline_update_contract`: a failed save leaves the
baseline of an idle orchestrator at `none`. -/
theorem baseline_update_contract_witness :
    (saveToServer (some "Network error") 2 dataScalar stIdle).2.1.previousData
      = stIdle.previousData :=
  ((baseline_update_contract envAllOk (some "Network error") 2 dataScalar
      stIdle rfl).1.2) "Network error" rfl

/-- C2 counterexample: after a failed `saveToServer` the baseline does not
equal the attempted record — it stays `none` — although the claim demands it
equal the attempted record whether the call returns true or false. -/
theorem baseline_not_attempted_on_failure :
    (saveToServer (some "Network error") 2 dataScalar stIdle).1 = false ∧
    (saveToServer (some "Network error") 2 dataScalar stIdle).2.1.previousData
      = none ∧
    (saveToServer (some "Network error") 2 dataScalar stIdle).2.1.previousData
      ≠ some dataScalar := by
  refine ⟨rfl, rfl, by decide⟩

/-! ## C3: single-flight mutex -/

/-- C3: while the in-progress flag is held, a second `loadFromServer`,
`saveToServer` or `fullSync` call returns its no-op sentinel (`null` resp.
`false`) immediately, changes no state and issues no network request; with
the flag free, each operation releases the flag when it settles, whether it
succeeds or fails. -/
theorem mutex_single_flight (envL : LoadEnv) (envF : FullSyncEnv)
    (sres : Option String) (now : Nat) (sid : String) (data : SSPData)
    (st : OrchState) :
    (st.syncInProgress = true →
       loadFromServer envL now sid st = (none, st, []) ∧
       saveToServer sres now data st = (false, st, []) ∧
       fullSync envF now data st = (false, st, [])) ∧
    (st.syncInProgress = false →
       (loadFromServer envL now sid st).2.1.syncInProgress = false ∧
       (saveToServer sres now data st).2.1.syncInProgress = false ∧
       (fullSync envF now data st).2.1.syncInProgress = false) := by
  constructor
  · intro h
    refine ⟨?_, ?_, ?_⟩ <;> simp [loadFromServer, saveToServer, fullSync, h]
  · intro h
    refine ⟨?_, ?_, ?_⟩
    · rcases envL with ⟨lr, tr⟩
      cases lr with
      | error m => simp [loadFromServer, h]
      | ok d =>
          cases tr with
          | error m => simp [loadFromServer, h]
          | ok t => simp [loadFromServer, h]
    · cases sres <;> simp [saveToServer, h]
    · rcases envF with ⟨fres, sub⟩
      cases fres with
      | some m => simp [fullSync, h]
      | none =>
          by_cases hfail :
              ((activeKinds data).filter (fun k => (sub k).isSome)) = [] <;>
            simp [fullSync, h, List.isEmpty_iff, hfail]

/-- Witness for `mutex_single_flight`: with the flag held the second
`loadFromServer` is a sentinel no-op; with it free, `fullSync` releases the
flag. -/
theorem mutex_single_flight_witness :
    loadFromServer envLoadOk 1 "ssp-1" stBusy = (none, stBusy, []) ∧
    (fullSync envInfoFails 1 dataOneCollection stIdle).2.1.syncInProgress
      = false :=
  ⟨((mutex_single_flight envLoadOk envInfoFails none 1 "ssp-1"
       dataOneCollection stBusy).1 rfl).1,
   ((mutex_single_flight envLoadOk envInfoFails none 1 "ssp-1"
       dataOneCollection stIdle).2 rfl).2.2⟩

/-! ## Collection synchronizers (`src/services/sspMapper.ts`)

Modelled from the spec: the implementation of `sspMapper.ts` is not among the
available sources (only its tests are), so the delete-then-recreate protocol
of spec §4.3 is embedded here. Remote-store failures are represented by the
spec's three-way error taxonomy (§6/§7): the "not found / method not
allowed" class (HTTP 404/405), the "conflict/duplicate" class (status code
or message content), and everything else. -/

inductive ErrClass where
  | notFoundOrMethodNotAllowed
  | conflictOrDuplicate
  | fatal
deriving DecidableEq, Repr

structure ApiError where
  cls : ErrClass
  message : String
deriving DecidableEq, Repr

/-- Outcome of one network request, supplied by the environment. -/
inductive Outcome where
  | ok
  | fail (e : ApiError)
deriving DecidableEq, Repr

/-- A request body: remote-schema field names paired with values. -/
abbrev Payload := List (String × String)

/-- Requests a collection synchronizer can issue. -/
inductive Request where
  | deleteAll (path : String)
  | create (path : String) (body : Payload)
deriving DecidableEq, Repr

/-- An outcome the create loop tolerates: fulfilled, or rejected with the
conflict/duplicate class. -/
def Outcome.benign : Outcome → Bool
  | .ok => true
  | .fail e => e.cls = ErrClass.conflictOrDuplicate

/-- The create loop (spec §4.3 step 3): one POST per surviving row in input
order; a conflict/duplicate rejection is swallowed and the loop continues;
any other rejection propagates immediately (already-issued creates remain).
`out i` is the environment's outcome for the i-th create request. -/
def runCreates (path : String) (payloads : List Payload) (out : Nat → Outcome)
    (i : Nat) : List Request × Option ApiError :=
  match payloads with
  | [] => ([], none)
  | p :: ps =>
    match out i with
    | .ok =>
        let rest := runCreates path ps out (i + 1)
        (Request.create path p :: rest.1, rest.2)
    | .fail e =>
        if e.cls = ErrClass.conflictOrDuplicate then
          let rest := runCreates path ps out (i + 1)
          (Request.create path p :: rest.1, rest.2)
        else
          ([Request.create path p], some e)

/-- Modelled from the spec (§4.3): filter rows to those with non-blank
identifying fields, issue the delete-all request, tolerate a 404/405-class
delete failure (add-only fallback), propagate any other delete failure
without issuing creates, then run the create loop. Returns the issued
requests in order and the propagated error, if any. -/
def syncCollection {ρ : Type} (path : String) (validRow : ρ → Bool)
    (mapRow : ρ → Payload) (rows : List ρ) (del : Outcome)
    (out : Nat → Outcome) : List Request × Option ApiError :=
  let payloads := (rows.filter validRow).map mapRow
  match del with
  | .ok =>
      let r := runCreates path payloads out 0
      (Request.deleteAll path :: r.1, r.2)
  | .fail e =>
      if e.cls = ErrClass.notFoundOrMethodNotAllowed then
        let r := runCreates path payloads out 0
        (Request.deleteAll path :: r.1, r.2)
      else
        ([Request.deleteAll path], some e)

/-- JavaScript `String.prototype.trim`: strip whitespace from both ends
(structural embedding over the character list). -/
def trimChars (l : List Char) : List Char :=
  ((l.dropWhile Char.isWhitespace).reverse.dropWhile Char.isWhitespace).reverse

/-- `s.trim()` as a structural function. -/
def strTrim (s : String) : String := String.mk (trimChars s.data)

/-- A form value is non-blank (identifying-field validity, spec §3). -/
def nonBlank (v : Option String) : Bool := strTrim (v.getD "") != ""

def infoTypePayload (r : InfoType) : Payload :=
  [("nist_id", r.nistId.getD ""), ("name", r.name.getD ""),
   ("confidentiality", r.c.getD ""), ("integrity", r.i.getD ""),
   ("availability", r.a.getD "")]

def ppsPayload (r : PPSRow) : Payload :=
  [("port", r.port.getD ""), ("protocol", r.proto.getD ""),
   ("service", r.svc.getD ""), ("purpose", r.purpose.getD ""),
   ("direction", r.dir.getD ""), ("dit_ref", r.dit.getD "")]

def cryptoPayload (r : CryptoModule) : Payload :=
  [("module_name", r.mod.getD ""), ("certificate_number", r.cert.getD ""),
   ("fips_level", r.level.getD ""), ("usage", r.usage.getD ""),
   ("deployment_location", r.location.getD "")]

def sepDutyPayload (r : SepDutyRow) : Payload :=
  [("role", r.role.getD ""), ("access_level", r.access.getD ""),
   ("prohibited_actions", r.prohibited.getD ""),
   ("justification", r.justification.getD "")]

def policyPayload (r : PolicyDoc) : Payload :=
  [("control_family", r.family.getD ""), ("policy_title", r.title.getD ""),
   ("policy_version", r.version.getD ""), ("policy_owner", r.owner.getD ""),
   ("last_review_date", r.lastReview.getD ""), ("status", r.status.getD "")]

def scrmPayload (r : SCRMSupplier) : Payload :=
  [("supplier_name", r.supplier.getD ""), ("supplier_type", r.type.getD ""),
   ("criticality", r.criticality.getD ""),
   ("sbom_available", r.sbom.getD ""), ("risk_level", r.riskLevel.getD "")]

def cmBaselinePayload (r : CMBaseline) : Payload :=
  [("component_name", r.comp.getD ""), ("benchmark", r.bench.getD ""),
   ("version", r.ver.getD ""), ("compliance_pct", r.pct.getD ""),
   ("scan_frequency", r.scan.getD "")]

/-- `syncInfoTypes(sspId, items, existing)` — valid rows need non-blank
`nistId` and `name`; the third argument is unused by the sync protocol. -/
def syncInfoTypes (sspId : String) (rows : List InfoType)
    (_existing : List InfoType) (del : Outcome) (out : Nat → Outcome) :
    List Request × Option ApiError :=
  syncCollection ("/api/v1/ssp/" ++ sspId ++ "/info-types")
    (fun r => nonBlank r.nistId && nonBlank r.name) infoTypePayload rows del out

/-- `syncPortsProtocols` — valid rows need a non-blank `port`. -/
def syncPortsProtocols (sspId : String) (rows : List PPSRow) (del : Outcome)
    (out : Nat → Outcome) : List Request × Option ApiError :=
  syncCollection ("/api/v1/ssp/" ++ sspId ++ "/ports-protocols")
    (fun r => nonBlank r.port) ppsPayload rows del out

/-- `syncCryptoModules` — valid rows need a non-blank `mod`. -/
def syncCryptoModules (sspId : String) (rows : List CryptoModule)
    (del : Outcome) (out : Nat → Outcome) : List Request × Option ApiError :=
  syncCollection ("/api/v1/ssp/" ++ sspId ++ "/crypto-modules")
    (fun r => nonBlank r.mod) cryptoPayload rows del out

/-- `syncSeparationDuties` — valid rows need a non-blank `role`. -/
def syncSeparationDuties (sspId : String) (rows : List SepDutyRow)
    (del : Outcome) (out : Nat → Outcome) : List Request × Option ApiError :=
  syncCollection ("/api/v1/ssp/" ++ sspId ++ "/separation-duties")
    (fun r => nonBlank r.role) sepDutyPayload rows del out

/-- `syncPolicyMappings` — valid rows need a non-blank `family`. -/
def syncPolicyMappings (sspId : String) (rows : List PolicyDoc)
    (del : Outcome) (out : Nat → Outcome) : List Request × Option ApiError :=
  syncCollection ("/api/v1/ssp/" ++ sspId ++ "/policy-mappings")
    (fun r => nonBlank r.family) policyPayload rows del out

/-- `syncSCRMEntries` — valid rows need a non-blank `supplier`. -/
def syncSCRMEntries (sspId : String) (rows : List SCRMSupplier)
    (del : Outcome) (out : Nat → Outcome) : List Request × Option ApiError :=
  syncCollection ("/api/v1/ssp/" ++ sspId ++ "/scrm")
    (fun r => nonBlank r.supplier) scrmPayload rows del out

/-- `syncCMBaselines` — valid rows need a non-blank `comp`. -/
def syncCMBaselines (sspId : String) (rows : List CMBaseline)
    (del : Outcome) (out : Nat → Outcome) : List Request × Option ApiError :=
  syncCollection ("/api/v1/ssp/" ++ sspId ++ "/cm-baselines")
    (fun r => nonBlank r.comp) cmBaselinePayload rows del out

/-! ### Lemmas about the create loop -/

/-- The issued creates are always a prefix of the payload list, in order. -/
theorem runCreates_isPrefix (path : String) (payloads : List Payload)
    (out : Nat → Outcome) (i : Nat) :
    ∃ n, (runCreates path payloads out i).1 =
      (payloads.take n).map (Request.create path) := by
  induction payloads generalizing i with
  | nil => exact ⟨0, rfl⟩
  | cons p ps ih =>
      cases hout : out i with
      | ok =>
          obtain ⟨n, hn⟩ := ih (i + 1)
          exact ⟨n + 1, by simp [runCreates, hout, hn]⟩
      | fail e =>
          by_cases hc : e.cls = ErrClass.conflictOrDuplicate
          · obtain ⟨n, hn⟩ := ih (i + 1)
            exact ⟨n + 1, by simp [runCreates, hout, hc, hn]⟩
          · exact ⟨1, by simp [runCreates, hout, hc]⟩

/-- With only benign outcomes, all creates are issued and no error remains. -/
theorem runCreates_benign (path : String) (payloads : List Payload)
    (out : Nat → Outcome) (i : Nat)
    (h : ∀ k, k < payloads.length → (out (i + k)).benign = true) :
    runCreates path payloads out i =
      (payloads.map (Request.create path), none) := by
  induction payloads generalizing i with
  | nil => rfl
  | cons p ps ih =>
      have h0 : (out i).benign = true := by
        have := h 0 (Nat.succ_pos _)
        simpa using this
      have hrest : ∀ k, k < ps.length → (out (i + 1 + k)).benign = true := by
        intro k hk
        have := h (k + 1) (by simpa using Nat.succ_lt_succ hk)
        simpa [Nat.add_comm, Nat.add_assoc, Nat.add_left_comm] using this
      cases hout : out i with
      | ok => simp [runCreates, hout, ih (i + 1) hrest]
      | fail e =>
          have hc : e.cls = ErrClass.conflictOrDuplicate := by
            simpa [Outcome.benign, hout] using h0
          simp [runCreates, hout, hc, ih (i + 1) hrest]

/-- A first non-benign outcome at relative position `j` stops the loop
there: exactly the creates up to and including position `j` were issued
(and remain issued), and the error propagates. -/
theorem runCreates_fatal (path : String) (payloads : List Payload)
    (out : Nat → Outcome) (i j : Nat) (e : ApiError)
    (hbefore : ∀ k, k < j → (out (i + k)).benign = true)
    (hj : out (i + j) = .fail e) (hcls : e.cls ≠ ErrClass.conflictOrDuplicate)
    (hlen : j < payloads.length) :
    runCreates path payloads out i =
      ((payloads.take (j + 1)).map (Request.create path), some e) := by
  induction payloads generalizing i j with
  | nil => exact absurd hlen (Nat.not_lt_zero _)
  | cons p ps ih =>
      cases j with
      | zero =>
          have hi : out i = .fail e := by simpa using hj
          simp [runCreates, hi, hcls]
      | succ j =>
          have h0 : (out i).benign = true := by
            have := hbefore 0 (Nat.succ_pos _)
            simpa using this
          have hb : ∀ k, k < j → (out (i + 1 + k)).benign = true := by
            intro k hk
            have := hbefore (k + 1) (Nat.succ_lt_succ hk)
            simpa [Nat.add_comm, Nat.add_assoc, Nat.add_left_comm] using this
          have hj1 : out (i + 1 + j) = .fail e := by
            have : i + 1 + j = i + (j + 1) := by omega
            rw [this]; exact hj
          have hlen1 : j < ps.length := Nat.lt_of_succ_lt_succ hlen
          cases hout : out i with
          | ok => simp [runCreates, hout, ih (i + 1) j hb hj1 hlen1]
          | fail e0 =>
              have hc : e0.cls = ErrClass.conflictOrDuplicate := by
                simpa [Outcome.benign, hout] using h0
              simp [runCreates, hout, hc, ih (i + 1) j hb hj1 hlen1]

/-! ## C4: delete-then-recreate with tolerant failure classes -/

/-- C4: for every collection kind (the theorem is generic over the kind's
validity predicate and field mapping, which every one of the seven
instantiates), the delete-all request comes strictly before any create, and
all later requests are creates forming an in-order prefix of the valid rows'
payloads; a 404/405-class delete failure behaves exactly like a successful
delete (creates still proceed); any other delete failure propagates with no
create issued; with only benign create outcomes every create is issued and
the operation resolves without error (conflict/duplicate rejections are
swallowed); a first non-benign create failure propagates immediately, with
the creates issued so far remaining issued (no rollback). -/
theorem syncCollection_contract {ρ : Type} (path : String)
    (validRow : ρ → Bool) (mapRow : ρ → Payload) (rows : List ρ)
    (del : Outcome) (out : Nat → Outcome) :
    (let payloads := (rows.filter validRow).map mapRow
     (∃ n, (syncCollection path validRow mapRow rows del out).1 =
        Request.deleteAll path ::
          (payloads.take n).map (Request.create path)) ∧
     (∀ e, e.cls = ErrClass.notFoundOrMethodNotAllowed →
        syncCollection path validRow mapRow rows (.fail e) out =
        syncCollection path validRow mapRow rows .ok out) ∧
     (∀ e, e.cls ≠ ErrClass.notFoundOrMethodNotAllowed →
        syncCollection path validRow mapRow rows (.fail e) out =
          ([Request.deleteAll path], some e)) ∧
     ((∀ k, k < payloads.length → (out k).benign = true) →
        syncCollection path validRow mapRow rows .ok out =
          (Request.deleteAll path :: payloads.map (Request.create path),
           none)) ∧
     (∀ j e, (∀ k, k < j → (out k).benign = true) → out j = .fail e →
        e.cls ≠ ErrClass.conflictOrDuplicate → j < payloads.length →
        syncCollection path validRow mapRow rows .ok out =
          (Request.deleteAll path ::
             (payloads.take (j + 1)).map (Request.create path),
           some e))) := by
  refine ⟨?_, ?_, ?_, ?_, ?_⟩
  · cases del with
    | ok =>
        obtain ⟨n, hn⟩ := runCreates_isPrefix path
          (((rows.filter validRow).map mapRow)) out 0
        exact ⟨n, by simp [syncCollection, hn]⟩
    | fail e =>
        by_cases hc : e.cls = ErrClass.notFoundOrMethodNotAllowed
        · obtain ⟨n, hn⟩ := runCreates_isPrefix path
            (((rows.filter validRow).map mapRow)) out 0
          exact ⟨n, by simp [syncCollection, hc, hn]⟩
        · exact ⟨0, by simp [syncCollection, hc]⟩
  · intro e hc; simp [syncCollection, hc]
  · intro e hc; simp [syncCollection, hc]
  · intro hben
    have := runCreates_benign path ((rows.filter validRow).map mapRow) out 0
      (by intro k hk; simpa using hben k hk)
    simp [syncCollection, this]
  · intro j e hb hj hcls hlen
    have := runCreates_fatal path ((rows.filter validRow).map mapRow) out 0 j
      e (by intro k hk; simpa using hb k hk) (by simpa using hj) hcls hlen
    simp [syncCollection, this]

/-- Fixed outcome environments for witnesses. -/
def allOkOut : Nat → Outcome := fun _ => Outcome.ok

/-- First create conflicts, the rest succeed. -/
def conflictFirstOut : Nat → Outcome := fun i =>
  if i = 0 then Outcome.fail ⟨ErrClass.conflictOrDuplicate, "409 Conflict: duplicate"⟩
  else Outcome.ok

/-- Witness for `syncCollection_contract`: the ports/protocols instantiation
with a tolerated 404 delete failure and a swallowed 409 on the first create
still issues the delete followed by both creates and resolves without
error. -/
theorem syncCollection_contract_witness :
    syncPortsProtocols "ssp-test-001"
      [{ port := some "80", proto := some "TCP", svc := some "HTTP" },
       { port := some "443", proto := some "TCP", svc := some "HTTPS" }]
      (.fail ⟨ErrClass.notFoundOrMethodNotAllowed, "404 Not Found"⟩)
      conflictFirstOut =
    syncPortsProtocols "ssp-test-001"
      [{ port := some "80", proto := some "TCP", svc := some "HTTP" },
       { port := some "443", proto := some "TCP", svc := some "HTTPS" }]
      .ok conflictFirstOut ∧
    syncPortsProtocols "ssp-test-001"
      [{ port := some "80", proto := some "TCP", svc := some "HTTP" },
       { port := some "443", proto := some "TCP", svc := some "HTTPS" }]
      .ok conflictFirstOut =
    (Request.deleteAll "/api/v1/ssp/ssp-test-001/ports-protocols" ::
       [ppsPayload { port := some "80", proto := some "TCP", svc := some "HTTP" },
        ppsPayload { port := some "443", proto := some "TCP", svc := some "HTTPS" }].map
         (Request.create "/api/v1/ssp/ssp-test-001/ports-protocols"),
     none) :=
  ⟨(syncCollection_contract _ _ _ _ (.fail ⟨ErrClass.notFoundOrMethodNotAllowed, "404 Not Found"⟩)
      conflictFirstOut).2.1 _ rfl, rfl⟩

/-! ## C5: blank-identifier rows are silently dropped -/

/-- C5: rows whose identifying fields are blank are dropped before
transmission and cause no error: with all outcomes successful, each of the
seven synchronizers issues the delete-all followed by exactly one create per
valid row, in input order, resolving without error (the respective validity
predicates are `nistId`+`name`, `port`, `mod`, `role`, `family`, `supplier`,
`comp`); in particular `syncInfoTypes` on one row missing `nistId` and one
fully populated row issues exactly one delete call followed by one create
call. -/
theorem blank_rows_dropped (sid : String) (it : List InfoType)
    (pps : List PPSRow) (cm : List CryptoModule) (sd : List SepDutyRow)
    (pd : List PolicyDoc) (sc : List SCRMSupplier) (cb : List CMBaseline) :
    (syncInfoTypes sid it [] .ok allOkOut =
      (Request.deleteAll ("/api/v1/ssp/" ++ sid ++ "/info-types") ::
        ((it.filter (fun r => nonBlank r.nistId && nonBlank r.name)).map
          infoTypePayload).map
          (Request.create ("/api/v1/ssp/" ++ sid ++ "/info-types")), none)) ∧
    (syncPortsProtocols sid pps .ok allOkOut =
      (Request.deleteAll ("/api/v1/ssp/" ++ sid ++ "/ports-protocols") ::
        ((pps.filter (fun r => nonBlank r.port)).map ppsPayload).map
          (Request.create ("/api/v1/ssp/" ++ sid ++ "/ports-protocols")),
       none)) ∧
    (syncCryptoModules sid cm .ok allOkOut =
      (Request.deleteAll ("/api/v1/ssp/" ++ sid ++ "/crypto-modules") ::
        ((cm.filter (fun r => nonBlank r.mod)).map cryptoPayload).map
          (Request.create ("/api/v1/ssp/" ++ sid ++ "/crypto-modules")),
       none)) ∧
    (syncSeparationDuties sid sd .ok allOkOut =
      (Request.deleteAll ("/api/v1/ssp/" ++ sid ++ "/separation-duties") ::
        ((sd.filter (fun r => nonBlank r.role)).map sepDutyPayload).map
          (Request.create ("/api/v1/ssp/" ++ sid ++ "/separation-duties")),
       none)) ∧
    (syncPolicyMappings sid pd .ok allOkOut =
      (Request.deleteAll ("/api/v1/ssp/" ++ sid ++ "/policy-mappings") ::
        ((pd.filter (fun r => nonBlank r.family)).map policyPayload).map
          (Request.create ("/api/v1/ssp/" ++ sid ++ "/policy-mappings")),
       none)) ∧
    (syncSCRMEntries sid sc .ok allOkOut =
      (Request.deleteAll ("/api/v1/ssp/" ++ sid ++ "/scrm") ::
        ((sc.filter (fun r => nonBlank r.supplier)).map scrmPayload).map
          (Request.create ("/api/v1/ssp/" ++ sid ++ "/scrm")), none)) ∧
    (syncCMBaselines sid cb .ok allOkOut =
      (Request.deleteAll ("/api/v1/ssp/" ++ sid ++ "/cm-baselines") ::
        ((cb.filter (fun r => nonBlank r.comp)).map cmBaselinePayload).map
          (Request.create ("/api/v1/ssp/" ++ sid ++ "/cm-baselines")),
       none)) ∧
    (syncInfoTypes "ssp-1"
        [{ name := some "Valid" },
         { nistId := some "C.2", name := some "Valid" }] [] .ok allOkOut =
      ([Request.deleteAll "/api/v1/ssp/ssp-1/info-types",
        Request.create "/api/v1/ssp/ssp-1/info-types"
          (infoTypePayload { nistId := some "C.2", name := some "Valid" })],
       none)) := by
  have hben : ∀ (n : Nat), ∀ k, k < n → (allOkOut k).benign = true := by
    intro n k _; rfl
  refine ⟨?_, ?_, ?_, ?_, ?_, ?_, ?_, rfl⟩ <;>
    exact (syncCollection_contract _ _ _ _ .ok allOkOut).2.2.2.1 (hben _)

/-! ## Field validator (`validateSSP`, `src/utils/validation`)

Embedded from the source (the implementation appears at the end of
`src/utils/oscalImport.test.ts`). Scalar field access is through a `Field`
enumeration; the JS `Record<string, number>` of section error counts is a
total function `String → Nat` whose support is the set of present keys. -/

inductive Field where
  | sysName | sysAcronym | owningAgency | sysDesc | authType
  | conf | integ | avail
  | ctrlBaseline | rmfCurrentStep
  | bndNarr | dfNarr | netNarr
  | soName | aoName | issoName
  | ial | aal | rto | rpo | irPurpose | iscmType
  | soEmail | aoEmail | issoEmail | issmEmail | scaEmail | poEmail
  | catJust | baseJust | cryptoNarr | idNarr | scrmPlan
  | cpPurpose | cpScope | irScope | cmPurpose | cmChangeNarr | iscmNarrative
  | ptaCollectsPii | ptaPiaRequired
deriving DecidableEq, Repr, Fintype

/-- The JS property name of a field. -/
def Field.fname : Field → String
  | .sysName => "sysName"
  | .sysAcronym => "sysAcronym"
  | .owningAgency => "owningAgency"
  | .sysDesc => "sysDesc"
  | .authType => "authType"
  | .conf => "conf"
  | .integ => "integ"
  | .avail => "avail"
  | .ctrlBaseline => "ctrlBaseline"
  | .rmfCurrentStep => "rmfCurrentStep"
  | .bndNarr => "bndNarr"
  | .dfNarr => "dfNarr"
  | .netNarr => "netNarr"
  | .soName => "soName"
  | .aoName => "aoName"
  | .issoName => "issoName"
  | .ial => "ial"
  | .aal => "aal"
  | .rto => "rto"
  | .rpo => "rpo"
  | .irPurpose => "irPurpose"
  | .iscmType => "iscmType"
  | .soEmail => "soEmail"
  | .aoEmail => "aoEmail"
  | .issoEmail => "issoEmail"
  | .issmEmail => "issmEmail"
  | .scaEmail => "scaEmail"
  | .poEmail => "poEmail"
  | .catJust => "catJust"
  | .baseJust => "baseJust"
  | .cryptoNarr => "cryptoNarr"
  | .idNarr => "idNarr"
  | .scrmPlan => "scrmPlan"
  | .cpPurpose => "cpPurpose"
  | .cpScope => "cpScope"
  | .irScope => "irScope"
  | .cmPurpose => "cmPurpose"
  | .cmChangeNarr => "cmChangeNarr"
  | .iscmNarrative => "iscmNarrative"
  | .ptaCollectsPii => "ptaCollectsPii"
  | .ptaPiaRequired => "ptaPiaRequired"

/-- `data[field]` for the scalar fields the validator consults. -/
def SSPData.get (d : SSPData) : Field → Option String
  | .sysName => d.sysName
  | .sysAcronym => d.sysAcronym
  | .owningAgency => d.owningAgency
  | .sysDesc => d.sysDesc
  | .authType => d.authType
  | .conf => d.conf
  | .integ => d.integ
  | .avail => d.avail
  | .ctrlBaseline => d.ctrlBaseline
  | .rmfCurrentStep => d.rmfCurrentStep
  | .bndNarr => d.bndNarr
  | .dfNarr => d.dfNarr
  | .netNarr => d.netNarr
  | .soName => d.soName
  | .aoName => d.aoName
  | .issoName => d.issoName
  | .ial => d.ial
  | .aal => d.aal
  | .rto => d.rto
  | .rpo => d.rpo
  | .irPurpose => d.irPurpose
  | .iscmType => d.iscmType
  | .soEmail => d.soEmail
  | .aoEmail => d.aoEmail
  | .issoEmail => d.issoEmail
  | .issmEmail => d.issmEmail
  | .scaEmail => d.scaEmail
  | .poEmail => d.poEmail
  | .catJust => d.catJust
  | .baseJust => d.baseJust
  | .cryptoNarr => d.cryptoNarr
  | .idNarr => d.idNarr
  | .scrmPlan => d.scrmPlan
  | .cpPurpose => d.cpPurpose
  | .cpScope => d.cpScope
  | .irScope => d.irScope
  | .cmPurpose => d.cmPurpose
  | .cmChangeNarr => d.cmChangeNarr
  | .iscmNarrative => d.iscmNarrative
  | .ptaCollectsPii => d.ptaCollectsPii
  | .ptaPiaRequired => d.ptaPiaRequired

/-- `REQUIRED_FIELDS`: section → required fields with display labels. -/
def REQUIRED_FIELDS : List (String × List (Field × String)) :=
  [("system_info",
    [(.sysName, "System Name"), (.sysAcronym, "System Acronym"),
     (.owningAgency, "Owning Agency"), (.sysDesc, "System Description"),
     (.authType, "Authorization Type")]),
   ("fips_199",
    [(.conf, "Confidentiality Level"), (.integ, "Integrity Level"),
     (.avail, "Availability Level")]),
   ("control_baseline", [(.ctrlBaseline, "Control Baseline")]),
   ("rmf_lifecycle", [(.rmfCurrentStep, "Current RMF Step")]),
   ("authorization_boundary", [(.bndNarr, "Boundary Narrative")]),
   ("data_flow", [(.dfNarr, "Data Flow Narrative")]),
   ("network_architecture", [(.netNarr, "Network Narrative")]),
   ("personnel",
    [(.soName, "System Owner Name"), (.aoName, "Authorizing Official Name"),
     (.issoName, "ISSO Name")]),
   ("digital_identity",
    [(.ial, "Identity Assurance Level (IAL)"),
     (.aal, "Authenticator Assurance Level (AAL)")]),
   ("contingency_plan",
    [(.rto, "Recovery Time Objective (RTO)"),
     (.rpo, "Recovery Point Objective (RPO)")]),
   ("incident_response", [(.irPurpose, "IR Plan Purpose")]),
   ("continuous_monitoring", [(.iscmType, "ISCM Strategy Type")])]

/-- `FIELD_LABELS` (partial map used by the format/cross-field passes). -/
def FIELD_LABELS : Field → Option String
  | .sysName => some "System Name"
  | .sysAcronym => some "System Acronym"
  | .owningAgency => some "Owning Agency"
  | .sysDesc => some "System Description"
  | .authType => some "Authorization Type"
  | .conf => some "Confidentiality"
  | .integ => some "Integrity"
  | .avail => some "Availability"
  | .ctrlBaseline => some "Control Baseline"
  | .rmfCurrentStep => some "Current RMF Step"
  | .bndNarr => some "Boundary Narrative"
  | .dfNarr => some "Data Flow Narrative"
  | .netNarr => some "Network Narrative"
  | .soName => some "System Owner Name"
  | .aoName => some "Authorizing Official Name"
  | .issoName => some "ISSO Name"
  | .ial => some "IAL"
  | .aal => some "AAL"
  | .rto => some "RTO"
  | .rpo => some "RPO"
  | .irPurpose => some "IR Purpose"
  | .iscmType => some "ISCM Type"
  | _ => none

/-- `FIELD_LABELS[field] || field`. -/
def labelFor (f : Field) : String := (FIELD_LABELS f).getD f.fname

/-- `s.startsWith(p)` (structural). -/
def strStarts (s p : String) : Bool := p.data.isPrefixOf s.data

/-- `sectionForField`: required-field table lookup first, then prefix
inference, defaulting to `system_info`. -/
def sectionForField (f : Field) : String :=
  match REQUIRED_FIELDS.find? (fun e => e.2.any (fun p => p.1 == f)) with
  | some e => e.1
  | none =>
      let n := f.fname
      if strStarts n "so" || strStarts n "ao" || strStarts n "isso" ||
         strStarts n "issm" || strStarts n "sca" || strStarts n "po" then
        "personnel"
      else if strStarts n "pta" || strStarts n "pia" || strStarts n "sorn" then
        "privacy"
      else if strStarts n "cp" || n == "rto" || n == "rpo" then
        "contingency_plan"
      else if strStarts n "ir" then "incident_response"
      else if strStarts n "cm" then "configuration_management"
      else if strStarts n "iscm" then "continuous_monitoring"
      else "system_info"

structure VError where
  field : String
  message : String
  /-- the JS `section` property (`section` is a Lean keyword) -/
  sect : String
deriving DecidableEq, Repr

structure ValidationResult where
  isValid : Bool
  errors : List VError
  errorCount : Nat
  sectionErrors : String → Nat

/-- `value === undefined || value === null || value === ''`. -/
def isMissingVal : Option String → Bool
  | none => true
  | some s => s == ""

/-- Splitting a character list at every occurrence of `c`. -/
def splitOnChar (c : Char) : List Char → List (List Char)
  | [] => [[]]
  | x :: xs =>
      let r := splitOnChar c xs
      if x = c then [] :: r
      else
        match r with
        | [] => [[x]]
        | h :: t => (x :: h) :: t

/-- The email pattern `/^[^\s@]+@[^\s@]+\.[^\s@]+$/`: one `@`, a non-empty
local part without whitespace, and a domain holding a dot with non-empty
material on both sides. -/
def emailMatches (s : String) : Bool :=
  match splitOnChar '@' s.data with
  | [a, rest] =>
      (!a.isEmpty) && a.all (fun x => !x.isWhitespace) &&
      (!rest.isEmpty) && rest.all (fun x => !x.isWhitespace) &&
      ((rest.drop 1).dropLast.contains '.')
  | _ => false

/-- `value.toLowerCase()` (structural). -/
def lowerStr (s : String) : String := String.mk (s.data.map Char.toLower)

def VALID_IMPACT_LEVELS : List String := ["Low", "Moderate", "High"]

def EMAIL_FIELDS : List Field :=
  [.soEmail, .aoEmail, .issoEmail, .issmEmail, .scaEmail, .poEmail]

def IMPACT_LEVEL_FIELDS : List Field := [.conf, .integ, .avail]

def MAX_NARRATIVE_LENGTH : Nat := 50000

def NARRATIVE_FIELDS : List Field :=
  [.sysDesc, .catJust, .baseJust, .bndNarr, .dfNarr, .netNarr,
   .cryptoNarr, .idNarr, .scrmPlan, .cpPurpose, .cpScope,
   .irPurpose, .irScope, .cmPurpose, .cmChangeNarr, .iscmNarrative]

/-- Pass 1 misses for one section. -/
def requiredMisses (data : SSPData) (sec : String)
    (fields : List (Field × String)) : List VError :=
  fields.filterMap fun p =>
    if isMissingVal (data.get p.1) then
      some ⟨p.1.fname, p.2 ++ " is required", sec⟩
    else none

/-- One step of the pass-1 fold: append the section's misses and, when the
section had any, record its count. -/
def reqStep (data : SSPData) (acc : List VError × (String → Nat))
    (entry : String × List (Field × String)) :
    List VError × (String → Nat) :=
  let ms := requiredMisses data entry.1 entry.2
  (acc.1 ++ ms,
   if ms.length > 0 then
     (fun t => if t = entry.1 then ms.length else acc.2 t)
   else acc.2)

/-- Pass 1 over the whole required-field table. -/
def reqFold (data : SSPData) : List VError × (String → Nat) :=
  REQUIRED_FIELDS.foldl (reqStep data) ([], fun _ => 0)

/-- The required-field errors. -/
def requiredErrors (data : SSPData) : List VError := (reqFold data).1

/-- Pass 2: email format. -/
def emailErrors (data : SSPData) : List VError :=
  EMAIL_FIELDS.filterMap fun f =>
    match data.get f with
    | some v =>
        if (strTrim v).length != 0 && !emailMatches v then
          some ⟨f.fname, labelFor f ++ " must be a valid email address",
                sectionForField f⟩
        else none
    | none => none

/-- Pass 2: impact-level enumeration (case-insensitive). -/
def impactErrors (data : SSPData) : List VError :=
  IMPACT_LEVEL_FIELDS.filterMap fun f =>
    match data.get f with
    | some v =>
        if (strTrim v).length != 0 &&
           !(VALID_IMPACT_LEVELS.map lowerStr).contains (lowerStr v) then
          some ⟨f.fname,
                labelFor f ++ " must be one of: " ++
                  String.intercalate ", " VALID_IMPACT_LEVELS,
                "fips_199"⟩
        else none
    | none => none

/-- Pass 2: narrative length limits. -/
def narrativeErrors (data : SSPData) : List VError :=
  NARRATIVE_FIELDS.filterMap fun f =>
    match data.get f with
    | some v =>
        if v.length > MAX_NARRATIVE_LENGTH then
          some ⟨f.fname,
                labelFor f ++ " exceeds maximum length of 50,000 characters",
                sectionForField f⟩
        else none
    | none => none

/-- Pass 3: PII → PIA cross-field rule. -/
def piiErrors (data : SSPData) : List VError :=
  if data.ptaCollectsPii == some "Yes" && isMissingVal data.ptaPiaRequired then
    [⟨"ptaPiaRequired",
      "PIA Required status must be specified when system collects PII",
      "privacy"⟩]
  else []

/-- Pass 3: RTO/RPO numeric-content rule. -/
def rtoRpoErrors (data : SSPData) : List VError :=
  [Field.rto, Field.rpo].filterMap fun f =>
    match data.get f with
    | some v =>
        if (strTrim v).length != 0 && !(v.data.any Char.isDigit) then
          some ⟨f.fname,
                labelFor f ++ " should include a numeric value (e.g., \"4 hours\")",
                "contingency_plan"⟩
        else none
    | none => none

/-- The format- and cross-field passes, in source order. -/
def formatCrossErrors (data : SSPData) : List VError :=
  emailErrors data ++ impactErrors data ++ narrativeErrors data ++
    piiErrors data ++ rtoRpoErrors data

/-- `sectionErrors[section] = (sectionErrors[section] || 0) + 1`. -/
def bump (m : String → Nat) (s : String) : String → Nat :=
  fun t => if t = s then m s + 1 else m t

/-- `validateSSP` (source-faithful): required pass, format passes,
cross-field passes; `isValid` is `errors.length === 0`. -/
def validateSSP (data : SSPData) : ValidationResult :=
  let req := reqFold data
  let extra := formatCrossErrors data
  let errors := req.1 ++ extra
  { isValid := errors.length == 0
    errors := errors
    errorCount := errors.length
    sectionErrors := extra.foldl (fun m e => bump m e.sect) req.2 }

/-! ## Export-gating type guard (`isValidatedSSPData`, `src/types/index.ts`) -/

/-- `typeof v === 'string' && v.trim().length > 0`. -/
def presentNonBlank : Option String → Bool
  | some s => (strTrim s).length != 0
  | none => false

/-- `isImpactLevel`: exact, case-sensitive membership in
{Low, Moderate, High}. -/
def isImpactLevel (v : Option String) : Bool :=
  v == some "Low" || v == some "Moderate" || v == some "High"

/-- `isControlBaseline`: same closed set. -/
def isControlBaseline (v : Option String) : Bool :=
  v == some "Low" || v == some "Moderate" || v == some "High"

/-- `isValidatedSSPData` from `src/types/index.ts` (lines 39-50). -/
def isValidatedSSPData (d : SSPData) : Bool :=
  presentNonBlank d.sysName &&
  presentNonBlank d.sysDesc &&
  isImpactLevel d.conf &&
  isImpactLevel d.integ &&
  isImpactLevel d.avail &&
  isControlBaseline d.ctrlBaseline &&
  presentNonBlank d.authType &&
  presentNonBlank d.owningAgency

/-! ### Lemmas: the section-error counts are exactly the per-section error
counts -/

/-- All pass-1 misses, in table order. -/
def missesOf (data : SSPData) :
    List (String × List (Field × String)) → List VError
  | [] => []
  | e :: rest => requiredMisses data e.1 e.2 ++ missesOf data rest

theorem reqFold_errs (data : SSPData)
    (entries : List (String × List (Field × String))) :
    ∀ acc, (entries.foldl (reqStep data) acc).1 = acc.1 ++ missesOf data entries := by
  induction entries with
  | nil => intro acc; simp [missesOf]
  | cons e rest ih =>
      intro acc
      rw [List.foldl_cons, ih]
      simp [missesOf, reqStep]

theorem requiredMisses_sect (data : SSPData) (sec : String)
    (fields : List (Field × String)) :
    ∀ e ∈ requiredMisses data sec fields, e.sect = sec := by
  intro e he
  simp only [requiredMisses, List.mem_filterMap] at he
  obtain ⟨p, _, hp⟩ := he
  split at hp
  · rw [Option.some.injEq] at hp
    subst hp
    rfl
  · cases hp

theorem countP_requiredMisses (data : SSPData) (sec : String)
    (fields : List (Field × String)) (s : String) :
    (requiredMisses data sec fields).countP (fun e => e.sect == s) =
      if sec = s then (requiredMisses data sec fields).length else 0 := by
  by_cases h : sec = s
  · subst h
    rw [if_pos rfl, List.countP_eq_length]
    intro e he
    simp [requiredMisses_sect data sec fields e he]
  · rw [if_neg h, List.countP_eq_zero]
    intro e he
    simp [requiredMisses_sect data sec fields e he, h]

/-- Pointwise effect of one pass-1 step on the count map. -/
theorem reqStep_snd (data : SSPData) (acc : List VError × (String → Nat))
    (entry : String × List (Field × String)) (t : String) :
    (reqStep data acc entry).2 t =
      if 0 < (requiredMisses data entry.1 entry.2).length ∧ t = entry.1 then
        (requiredMisses data entry.1 entry.2).length
      else acc.2 t := by
  simp only [reqStep]
  split
  · rename_i h
    by_cases ht : t = entry.1
    · simp [ht, h]
    · simp [ht]
  · rename_i h
    have hno : ¬ (0 < (requiredMisses data entry.1 entry.2).length ∧
        t = entry.1) := fun hc => h hc.1
    simp [hno]

theorem reqFold_counts (data : SSPData) :
    ∀ (entries : List (String × List (Field × String)))
      (acc : List VError × (String → Nat)),
      (∀ sec ∈ entries.map Prod.fst, acc.2 sec = 0) →
      (entries.map Prod.fst).Nodup →
      ∀ s, (entries.foldl (reqStep data) acc).2 s =
        acc.2 s + (missesOf data entries).countP (fun e => e.sect == s) := by
  intro entries
  induction entries with
  | nil => intro acc _ _ s; simp [missesOf]
  | cons ent rest ih =>
      intro acc hm hnd s
      rcases ent with ⟨sec, fields⟩
      simp only [List.map_cons, List.nodup_cons] at hnd
      obtain ⟨hsec, hnd'⟩ := hnd
      have hm0 : acc.2 sec = 0 := hm sec (by simp)
      have hm1 : ∀ sec' ∈ rest.map Prod.fst,
          (reqStep data acc (sec, fields)).2 sec' = 0 := by
        intro sec' hmem
        have hne : sec' ≠ sec := fun h => hsec (h ▸ hmem)
        rw [reqStep_snd]
        simp only [hne, and_false, if_false]
        exact hm sec' (by simp [hmem])
      rw [List.foldl_cons, ih (reqStep data acc (sec, fields)) hm1 hnd' s,
        reqStep_snd]
      simp only [missesOf, List.countP_append,
        countP_requiredMisses data sec fields s]
      by_cases hss : sec = s
      · subst hss
        by_cases hlen : 0 < (requiredMisses data sec fields).length
        · simp [hlen, hm0]
        · have : (requiredMisses data sec fields).length = 0 := by omega
          simp [hlen, hm0, this]
      · have hss' : s ≠ sec := fun h => hss h.symm
        simp [hss, hss']

theorem bumpAll (es : List VError) :
    ∀ (m : String → Nat) (s : String),
      (es.foldl (fun m e => bump m e.sect) m) s =
        m s + es.countP (fun e => e.sect == s) := by
  induction es with
  | nil => intro m s; simp
  | cons e rest ih =>
      intro m s
      rw [List.foldl_cons, ih, List.countP_cons]
      by_cases h : e.sect = s
      · simp [bump, h]
        omega
      · have : s ≠ e.sect := fun hh => h hh.symm
        simp [bump, h, this]

theorem validateSSP_sectionErrors (data : SSPData) (s : String) :
    (validateSSP data).sectionErrors s =
      (validateSSP data).errors.countP (fun e => e.sect == s) := by
  have h1 := reqFold_counts data REQUIRED_FIELDS ([], fun _ => 0)
    (fun _ _ => rfl) (by decide) s
  have h2 := bumpAll (formatCrossErrors data) (reqFold data).2 s
  have herr := reqFold_errs data REQUIRED_FIELDS ([], fun _ => 0)
  simp only [validateSSP]
  rw [h2]
  have h1' : (reqFold data).2 s =
      (missesOf data REQUIRED_FIELDS).countP (fun e => e.sect == s) := by
    rw [reqFold, h1]
    simp
  have herr' : (reqFold data).1 = missesOf data REQUIRED_FIELDS := by
    rw [reqFold, herr]
    simp
  rw [h1', herr', List.countP_append]

/-- `e ∈ missesOf data entries` iff some table entry produced it. -/
theorem mem_missesOf (data : SSPData) (e : VError) :
    ∀ entries, e ∈ missesOf data entries ↔
      ∃ ent ∈ entries, e ∈ requiredMisses data ent.1 ent.2 := by
  intro entries
  induction entries with
  | nil => simp [missesOf]
  | cons ent rest ih => simp [missesOf, ih]

/-- `Field.fname` is injective (exhaustive check). -/
theorem Field.fname_inj : ∀ f g : Field, f.fname = g.fname → f = g := by decide

/-! ## C6: validator output guarantees -/

/-- C6 (amended): for every record, `validateSSP`'s required pass checks the
fixed per-section field lists of `REQUIRED_FIELDS` and reports a field as
missing exactly when its value is absent or the empty string (a
whitespace-only value is NOT reported — the source compares with `''`
without trimming), emitting one error tagged with its section per missing
field; `isValid` is true iff `errors` is empty; `errorCount` equals the
number of errors; and the section-error map assigns every section exactly
its error count (hence only sections with at least one error appear with a
non-zero count). -/
theorem validateSSP_contract (data : SSPData) :
    ((validateSSP data).isValid = true ↔ (validateSSP data).errors = []) ∧
    (validateSSP data).errorCount = (validateSSP data).errors.length ∧
    (∀ s, (validateSSP data).sectionErrors s =
        (validateSSP data).errors.countP (fun e => e.sect == s)) ∧
    (validateSSP data).errors =
      requiredErrors data ++ formatCrossErrors data ∧
    (∀ sec fields f label, (sec, fields) ∈ REQUIRED_FIELDS →
       (f, label) ∈ fields →
       (VError.mk (Field.fname f) (label ++ " is required") sec ∈
           requiredErrors data ↔
         (data.get f = none ∨ data.get f = some ""))) := by
  refine ⟨?_, rfl, validateSSP_sectionErrors data, rfl, ?_⟩
  · simp [validateSSP, List.length_eq_zero]
  · intro sec fields f label hsec hf
    have herr : requiredErrors data = missesOf data REQUIRED_FIELDS := by
      have := reqFold_errs data REQUIRED_FIELDS ([], fun _ => 0)
      rw [requiredErrors, reqFold, this]
      simp
    rw [herr, mem_missesOf]
    constructor
    · rintro ⟨ent, _, hmem⟩
      simp only [requiredMisses, List.mem_filterMap] at hmem
      obtain ⟨p, _, hp⟩ := hmem
      split at hp
      · rename_i hmiss
        rw [Option.some.injEq] at hp
        have hfe : p.1.fname = f.fname := congrArg VError.field hp
        have hpf : p.1 = f := Field.fname_inj _ _ hfe
        rw [hpf] at hmiss
        cases hget : data.get f with
        | none => exact Or.inl rfl
        | some str =>
            right
            rw [hget] at hmiss
            simp only [isMissingVal, beq_iff_eq] at hmiss
            exact congrArg some hmiss
      · cases hp
    · intro hmiss
      refine ⟨(sec, fields), hsec, ?_⟩
      simp only [requiredMisses, List.mem_filterMap]
      refine ⟨(f, label), hf, ?_⟩
      have hmv : isMissingVal (data.get f) = true := by
        rcases hmiss with h | h <;> simp [isMissingVal, h]
      rw [if_pos hmv]

/-- Witness for `validateSSP_contract`: the empty record reports the
`sysName` requirement in section `system_info`. -/
theorem validateSSP_contract_witness :
    VError.mk "sysName" ("System Name" ++ " is required") "system_info" ∈
      requiredErrors {} :=
  ((validateSSP_contract {}).2.2.2.2 "system_info"
      [(Field.sysName, "System Name"), (Field.sysAcronym, "System Acronym"),
       (Field.owningAgency, "Owning Agency"),
       (Field.sysDesc, "System Description"),
       (Field.authType, "Authorization Type")]
      Field.sysName "System Name" (by decide) (by decide)).mpr (Or.inl rfl)

/-- A record whose system name is whitespace only. -/
def dWhitespaceName : SSPData := { sysName := some " " }

/-- C6 counterexample: the claim says a required field blank after trimming
is reported missing, but with `sysName = " "` (whitespace-only, blank after
trimming) `validateSSP` emits no `sysName is required` error at all. -/
theorem whitespace_required_not_reported :
    dWhitespaceName.sysName = some " " ∧
    strTrim " " = "" ∧
    VError.mk "sysName" "System Name is required" "system_info" ∉
      (validateSSP dWhitespaceName).errors := by
  refine ⟨rfl, by decide, by decide⟩

/-! ## C10: export guard versus validator -/

/-- The `buildMinimalSSP` fixture of the test suite: every required field
populated and well-formed. -/
def buildMinimalSSP : SSPData :=
  { sysName := some "ForgeTest System", sysAcronym := some "FTS",
    owningAgency := some "Department of Testing",
    sysDesc := some "An SSP for automated deployment testing.",
    authType := some "fedramp-agency", conf := some "Moderate",
    integ := some "Moderate", avail := some "Low",
    ctrlBaseline := some "Moderate", rmfCurrentStep := some "Implement",
    bndNarr := some "The system boundary includes all cloud-hosted components.",
    dfNarr := some "Data flows from users through a TLS-encrypted API gateway.",
    netNarr := some "The network is segmented into public and private zones.",
    soName := some "Alice Owner", soEmail := some "alice@agency.gov",
    aoName := some "Bob Official", aoEmail := some "bob@agency.gov",
    issoName := some "Carol Security", issoEmail := some "carol@agency.gov",
    ial := some "2", aal := some "2", rto := some "4 hours",
    rpo := some "1 hour",
    irPurpose := some "Detect, contain, and recover from incidents.",
    iscmType := some "Hybrid" }

/-- The minimal record with a lowercase confidentiality level. -/
def recordLowercaseConf : SSPData :=
  { buildMinimalSSP with conf := some "low" }

/-- The minimal record with a whitespace-only system name. -/
def recordWhitespaceSysName : SSPData :=
  { buildMinimalSSP with sysName := some "   " }

/-- A record holding exactly the eight fields `isValidatedSSPData` checks. -/
def recordCoreOnly : SSPData :=
  { sysName := some "S", sysDesc := some "D", conf := some "Low",
    integ := some "Low", avail := some "Low", ctrlBaseline := some "Low",
    authType := some "fedramp-agency", owningAgency := some "Agency" }

/-- C10 counterexample: `isValidatedSSPData` is not strictly stronger than
passing `validateSSP` — a record holding exactly the eight guarded fields
satisfies the guard yet fails validation (the guard ignores the other
fourteen required fields). -/
theorem guard_not_stronger_than_validate :
    isValidatedSSPData recordCoreOnly = true ∧
    (validateSSP recordCoreOnly).isValid = false := by
  exact ⟨by decide, by decide⟩

/-- C10 (amended): `isValidatedSSPData` and passing `validateSSP` are
incomparable, but the guard is stricter on its shared fields: it trims
(rejecting whitespace-only `sysName`) and requires the impact levels to
equal 'Low'/'Moderate'/'High' case-sensitively (rejecting 'low'), both of
which `validateSSP` accepts — so records exist that pass `validateSSP` but
fail the guard (`conf = "low"`, or `sysName` whitespace-only), while the
fully-populated minimal record passes both. -/
theorem export_guard_vs_validateSSP :
    ((validateSSP recordLowercaseConf).isValid = true ∧
      isValidatedSSPData recordLowercaseConf = false) ∧
    ((validateSSP recordWhitespaceSysName).isValid = true ∧
      isValidatedSSPData recordWhitespaceSysName = false) ∧
    (isValidatedSSPData buildMinimalSSP = true ∧
      (validateSSP buildMinimalSSP).isValid = true) := by
  exact ⟨⟨by decide, by decide⟩, ⟨by decide, by decide⟩,
    ⟨by decide, by decide⟩⟩

/-! ## Change detector (`saveSSPToBackend` change detection, spec §4.2)

Modelled from the spec: `sspMapper.ts` is not among the sources. A section
is described by its key and a serialization of its fields (the JSON-compare
equality of the source); a section of the current record is "populated"
when its serialization differs from the empty record's. -/

structure SectionSpec where
  key : String
  ser : SSPData → String

/-- The empty record (all fields unset). -/
def emptySSPData : SSPData := {}

/-- A section is populated when it serializes differently from empty. -/
def sectionPopulated (sec : SectionSpec) (d : SSPData) : Bool :=
  sec.ser d != sec.ser emptySSPData

/-- Modelled from the spec (§4.2): include a section iff the previous
record is absent and the section is populated, or its serialized
representation differs between previous and current. -/
def sectionChanged (sec : SectionSpec) (prev : Option SSPData)
    (cur : SSPData) : Bool :=
  match prev with
  | none => sectionPopulated sec cur
  | some p => sec.ser p != sec.ser cur

/-- `computeChangedSections(previous, current)`: keys of changed sections. -/
def computeChangedSections (secs : List SectionSpec) (prev : Option SSPData)
    (cur : SSPData) : List String :=
  (secs.filter (fun sec => sectionChanged sec prev cur)).map SectionSpec.key

/-- Modelled from the spec (§4.4): `saveSSPToBackend` pushes one per-section
PUT for each changed section; the returned list is the issued write paths. -/
def saveSSPToBackend (secs : List SectionSpec) (sspId : String)
    (cur : SSPData) (prev : Option SSPData) : List String :=
  (computeChangedSections secs prev cur).map
    (fun k => "PUT /api/v1/ssp/" ++ sspId ++ "/sections/" ++ k)

/-- A concrete section table (a representative subset of the source's
section groups). -/
def SECTIONS : List SectionSpec :=
  [⟨"system_info", fun d => String.intercalate "|"
      [d.sysName.getD "", d.sysAcronym.getD "", d.owningAgency.getD "",
       d.sysDesc.getD "", d.authType.getD ""]⟩,
   ⟨"fips_199", fun d => String.intercalate "|"
      [d.conf.getD "", d.integ.getD "", d.avail.getD "", d.catJust.getD ""]⟩,
   ⟨"authorization_boundary", fun d => d.bndNarr.getD ""⟩,
   ⟨"data_flow", fun d => d.dfNarr.getD ""⟩,
   ⟨"contingency_plan_purpose", fun d => d.cpPurpose.getD ""⟩]

/-! ## C7: change detection on equal / absent previous -/

/-- C7: when the previous record equals the current record entirely, the
change detector produces the empty set and `saveSSPToBackend` issues no
section writes; when the previous record is absent (first save), every
populated section is treated as changed and pushed. -/
theorem change_detection_contract (secs : List SectionSpec) (sspId : String)
    (cur : SSPData) :
    computeChangedSections secs (some cur) cur = [] ∧
    saveSSPToBackend secs sspId cur (some cur) = [] ∧
    computeChangedSections secs none cur =
      (secs.filter (fun sec => sectionPopulated sec cur)).map
        SectionSpec.key ∧
    saveSSPToBackend secs sspId cur none =
      ((secs.filter (fun sec => sectionPopulated sec cur)).map
          SectionSpec.key).map
        (fun k => "PUT /api/v1/ssp/" ++ sspId ++ "/sections/" ++ k) := by
  have hnil : computeChangedSections secs (some cur) cur = [] := by
    simp [computeChangedSections, sectionChanged]
  have hfirst : computeChangedSections secs none cur =
      (secs.filter (fun sec => sectionPopulated sec cur)).map
        SectionSpec.key := by
    simp [computeChangedSections, sectionChanged]
  refine ⟨hnil, ?_, hfirst, ?_⟩
  · simp [saveSSPToBackend, hnil]
  · simp [saveSSPToBackend, hfirst]

/-! ## OSCAL importer (`importOscalSSP`, spec §4.6)

Modelled from the spec: the implementation of `oscalImport` is not among
the sources (only its tests). JSON documents are embedded as trees; a file
carries its byte size and the outcome of the platform JSON parser (`none`
models a parse failure). -/

inductive Json where
  | str (s : String)
  | num (n : Int)
  | jbool (b : Bool)
  | null
  | arr (elems : List Json)
  | obj (fields : List (String × Json))

/-- Key lookup on an object node (first match, like JS property access). -/
def Json.lookup : Json → String → Option Json
  | .obj fields, k => List.lookup k fields
  | _, _ => none

/-- Path lookup. -/
def Json.lookupPath (j : Json) : List String → Option Json
  | [] => some j
  | k :: ks =>
      match j.lookup k with
      | some v => v.lookupPath ks
      | none => none

/-- An uploaded file: reported byte size plus the platform parser's result
(`none` = invalid JSON). -/
structure OscalFile where
  size : Nat
  parsed : Option Json

/-- The importer's typed errors, each carrying its user-facing message. -/
inductive ImportError where
  | tooLarge (msg : String)
  | emptyFile (msg : String)
  | invalidJson (msg : String)
  | noSSP (msg : String)
deriving DecidableEq, Repr

def MAX_FILE_SIZE : Nat := 50 * 1024 * 1024

/-- `formatFileSize`: human-readable size with one decimal (B / KB / MB). -/
def formatFileSize (bytes : Nat) : String :=
  if bytes < 1024 then toString bytes ++ " B"
  else if bytes < 1024 * 1024 then
    let t := bytes * 10 / 1024
    toString (t / 10) ++ "." ++ toString (t % 10) ++ " KB"
  else
    let t := bytes * 10 / (1024 * 1024)
    toString (t / 10) ++ "." ++ toString (t % 10) ++ " MB"

structure DocumentInfo where
  title : String
  version : String
  lastModified : String
  oscalVersion : String
deriving DecidableEq, Repr

/-- String content of a JSON node, with default. -/
def jsonStr (j : Option Json) (d : String) : String :=
  match j with
  | some (.str s) => s
  | _ => d

/-- `documentInfo` extraction: title, version, last-modified and declared
OSCAL version from `metadata`, regardless of the rest of the document. -/
def extractDocumentInfo (ssp : Json) : DocumentInfo :=
  let md := ssp.lookup "metadata"
  { title := jsonStr (md.bind (fun m => m.lookup "title")) "Untitled",
    version := jsonStr (md.bind (fun m => m.lookup "version")) "",
    lastModified := jsonStr (md.bind (fun m => m.lookup "last-modified")) "",
    oscalVersion := jsonStr (md.bind (fun m => m.lookup "oscal-version")) "" }

/-- Field extraction (the fragment the claims consult): the system name
from `system-characteristics`. Fields absent in the source remain unset. -/
def extractData (ssp : Json) : SSPData :=
  let sc := ssp.lookup "system-characteristics"
  { sysName :=
      match sc.bind (fun c => c.lookup "system-name") with
      | some (.str s) => some s
      | _ => none,
    sysDesc :=
      match sc.bind (fun c => c.lookup "description") with
      | some (.str s) => some s
      | _ => none }

structure ImportOk where
  data : SSPData
  documentInfo : DocumentInfo

/-- Modelled from the spec (§4.6): pre-checks in order (size cap with both
sizes named, zero-byte), then the parse outcome ("Invalid JSON" distinct
from structural errors), then the root `system-security-plan` key
("No system-security-plan" distinct error), then extraction. -/
def importOscalSSP (f : OscalFile) : Except ImportError ImportOk :=
  if MAX_FILE_SIZE < f.size then
    .error (.tooLarge ("File too large: " ++ formatFileSize f.size ++
      " (maximum: " ++ formatFileSize MAX_FILE_SIZE ++ ")"))
  else if f.size = 0 then
    .error (.emptyFile "File is empty")
  else
    match f.parsed with
    | none => .error (.invalidJson "Invalid JSON: could not parse file")
    | some doc =>
        match doc.lookup "system-security-plan" with
        | none => .error (.noSSP "No system-security-plan found in document")
        | some ssp =>
            .ok { data := extractData ssp,
                  documentInfo := extractDocumentInfo ssp }

/-! ## C8: importer guard behaviour -/

/-- C8: files over 50 MB are rejected with an error naming both the actual
and the maximum size in human-readable units; zero-byte files are rejected
as empty; a parse failure yields the distinct "Invalid JSON" error; a
parsed document without a root `system-security-plan` key yields the
distinct "No system-security-plan" error; and a file of exactly 50 MB is
never rejected for size. -/
theorem import_guards (f : OscalFile) :
    (MAX_FILE_SIZE < f.size →
       importOscalSSP f = .error (.tooLarge ("File too large: " ++
         formatFileSize f.size ++ " (maximum: " ++
         formatFileSize MAX_FILE_SIZE ++ ")"))) ∧
    (f.size = 0 → importOscalSSP f = .error (.emptyFile "File is empty")) ∧
    (0 < f.size → f.size ≤ MAX_FILE_SIZE → f.parsed = none →
       importOscalSSP f =
         .error (.invalidJson "Invalid JSON: could not parse file")) ∧
    (∀ doc, 0 < f.size → f.size ≤ MAX_FILE_SIZE → f.parsed = some doc →
       doc.lookup "system-security-plan" = none →
       importOscalSSP f =
         .error (.noSSP "No system-security-plan found in document")) ∧
    (f.size = MAX_FILE_SIZE →
       ∀ m, importOscalSSP f ≠ .error (.tooLarge m)) ∧
    (∀ m m', ImportError.invalidJson m ≠ ImportError.noSSP m' ∧
       ImportError.invalidJson m ≠ ImportError.tooLarge m' ∧
       ImportError.invalidJson m ≠ ImportError.emptyFile m' ∧
       ImportError.noSSP m ≠ ImportError.emptyFile m') := by
  refine ⟨?_, ?_, ?_, ?_, ?_, ?_⟩
  · intro h
    simp [importOscalSSP, h]
  · intro h
    have hnot : ¬ MAX_FILE_SIZE < f.size := by omega
    simp [importOscalSSP, h, hnot]
  · intro h0 hle hp
    have hnot : ¬ MAX_FILE_SIZE < f.size := by omega
    have hnz : ¬ f.size = 0 := by omega
    simp [importOscalSSP, hnot, hnz, hp]
  · intro doc h0 hle hp hk
    have hnot : ¬ MAX_FILE_SIZE < f.size := by omega
    have hnz : ¬ f.size = 0 := by omega
    simp [importOscalSSP, hnot, hnz, hp, hk]
  · intro h m
    have hnot : ¬ MAX_FILE_SIZE < f.size := by rw [h]; exact lt_irrefl _
    have hnz : ¬ f.size = 0 := by rw [h, MAX_FILE_SIZE]; norm_num
    simp only [importOscalSSP, hnot, if_false]
    rw [if_neg hnz]
    split
    · simp
    · split <;> simp
  · intro m m'
    refine ⟨?_, ?_, ?_, ?_⟩ <;> intro h <;> cases h

/-- Witness for `import_guards`: a 51 MB file is rejected with a message
naming "51.0 MB" and "50.0 MB"; a zero-byte file is rejected as empty; an
exactly-50 MB file is not size-rejected. -/
theorem import_guards_witness :
    importOscalSSP ⟨51 * 1024 * 1024, some (Json.obj [])⟩ =
      .error (.tooLarge "File too large: 51.0 MB (maximum: 50.0 MB)") ∧
    importOscalSSP ⟨0, none⟩ = .error (.emptyFile "File is empty") ∧
    importOscalSSP ⟨MAX_FILE_SIZE, none⟩ ≠
      .error (.tooLarge "File too large: 50.0 MB (maximum: 50.0 MB)") := by
  refine ⟨?_, ?_, ?_⟩
  · have h := (import_guards ⟨51 * 1024 * 1024, some (Json.obj [])⟩).1
      (by norm_num [MAX_FILE_SIZE])
    rw [h]
    rfl
  · exact (import_guards ⟨0, none⟩).2.1 rfl
  · exact (import_guards ⟨MAX_FILE_SIZE, none⟩).2.2.2.2.1 rfl _

/-! ## OSCAL exporter (`generateOscalSSP`, spec §4.5)

Modelled from the spec: the implementation of `oscalExport` is not among
the sources (only its tests). The exporter is a total function building
the OSCAL document tree from the record plus static defaults; generated
UUIDs are abstracted by fixed placeholder identifiers, which the claims do
not consult. -/

def OSCAL_VERSION : String := "1.1.2"

/-- JS `value || default` on an optional string field. -/
def orDefault (v : Option String) (d : String) : String :=
  match v with
  | some s => if s = "" then d else s
  | none => d

/-- JS truthiness of an optional string. -/
def truthy (v : Option String) : Bool :=
  match v with
  | some s => s != ""
  | none => false

/-- One OSCAL party. -/
def mkParty (uuid kind nm : String) : Json :=
  Json.obj [("uuid", .str uuid), ("type", .str kind), ("name", .str nm)]

/-- One `responsible-party` entry. -/
def mkResponsibleParty (roleId uuid : String) : Json :=
  Json.obj [("role-id", .str roleId), ("party-uuids", .arr [.str uuid])]

/-- The personnel roles with their fixed OSCAL role ids, in source order. -/
def personnelRoles (d : SSPData) : List (String × Option String) :=
  [("system-owner", d.soName), ("authorizing-official", d.aoName),
   ("information-system-security-officer", d.issoName),
   ("information-system-security-manager", d.issmName),
   ("security-control-assessor", d.scaName),
   ("privacy-official", d.poName)]

/-- One party per populated personnel role. -/
def personnelParties (d : SSPData) : List Json :=
  (personnelRoles d).filterMap fun p =>
    if truthy p.2 then some (mkParty ("party-" ++ p.1) "person" (p.2.getD ""))
    else none

/-- One `responsible-party` per populated personnel role. -/
def responsibleParties (d : SSPData) : List Json :=
  (personnelRoles d).filterMap fun p =>
    if truthy p.2 then some (mkResponsibleParty p.1 ("party-" ++ p.1))
    else none

/-- One implemented-requirement per control entry (keyed by the lowercased
control id), or a default placeholder requirement when no controls were
entered. -/
def implementedRequirements (d : SSPData) : List Json :=
  match d.ctrlData with
  | [] =>
      [Json.obj
        [("uuid", .str "req-default"), ("control-id", .str "ac-1"),
         ("by-components", .arr
           [Json.obj [("description", .str "To be determined."),
                      ("implementation-status",
                       Json.obj [("state", .str "planned")])]])]]
  | entries =>
      entries.map fun e =>
        Json.obj
          [("uuid", .str ("req-" ++ lowerStr e.ctrlId)),
           ("control-id", .str (lowerStr e.ctrlId)),
           ("by-components", .arr
             [Json.obj [("description", .str (e.implementation.getD "")),
                        ("implementation-status",
                         Json.obj [("state",
                           .str (e.status.getD "planned"))])]])]

/-- The mandatory `this-system` component. -/
def thisSystemComponent (d : SSPData) : Json :=
  Json.obj
    [("uuid", .str "comp-this-system"), ("type", .str "this-system"),
     ("title", .str (orDefault d.sysName "This System")),
     ("description", .str (orDefault d.sysDesc "The system itself")),
     ("status", Json.obj [("state", .str "operational")])]

/-- Modelled from the spec (§4.5): total exporter building the full OSCAL
tree — metadata (title from the system name or placeholder, fixed OSCAL
version, organization plus per-populated-role parties and
responsible-parties), system-characteristics (direct name/description
mapping, impact levels copied into the three security objectives),
system-implementation (mandatory this-system component), and
control-implementation (one implemented-requirement per control entry,
defaults when empty). -/
def generateOscalSSP (d : SSPData) : Json :=
  Json.obj
    [("system-security-plan", Json.obj
      [("uuid", .str "doc-uuid"),
       ("metadata", Json.obj
         [("title", .str ("System Security Plan for " ++
             orDefault d.sysName "Untitled System")),
          ("version", .str "1.0"),
          ("oscal-version", .str OSCAL_VERSION),
          ("parties", .arr
            (mkParty "party-org" "organization"
               (orDefault d.owningAgency "Unknown Organization") ::
             personnelParties d)),
          ("responsible-parties", .arr (responsibleParties d))]),
       ("system-characteristics", Json.obj
         [("system-name", .str (orDefault d.sysName "Untitled System")),
          ("description", .str (orDefault d.sysDesc
             "No description provided")),
          ("security-impact-level", Json.obj
            [("security-objective-confidentiality",
              .str (orDefault d.conf "moderate")),
             ("security-objective-integrity",
              .str (orDefault d.integ "moderate")),
             ("security-objective-availability",
              .str (orDefault d.avail "moderate"))])]),
       ("system-implementation", Json.obj
         [("components", .arr [thisSystemComponent d])]),
       ("control-implementation", Json.obj
         [("description", .str "Control implementation"),
          ("implemented-requirements",
           .arr (implementedRequirements d))])])]

/-- Modelled from the spec (§4.5 serialization): the platform JSON engine
is an external collaborator; `JSON.parse(JSON.stringify(doc))` returns a
document equal to `doc` for every JSON value, so the stringify-then-parse
composite is the identity on document trees (`some` marks parse success). -/
def jsonRoundTrip (j : Json) : Option Json := some j

/-! ## C9: exporter totality, defaults and round-trip -/

/-- C9: the exporter is total — even a record with only `sysName` set
yields a document whose four top-level subtrees are present, whose
`system-characteristics.system-name` equals the record's `sysName`, and
whose `control-implementation.implemented-requirements` is non-empty
(defaults filled); the document round-trips through stringify/parse
unchanged, and re-extracting the system name from the reparsed document
(with the importer's extractor) yields the original `sysName`. -/
theorem export_contract (d : SSPData) (n : String) (hn : d.sysName = some n)
    (hne : n ≠ "") :
    ((generateOscalSSP d).lookupPath
        ["system-security-plan", "metadata"]).isSome = true ∧
    ((generateOscalSSP d).lookupPath
        ["system-security-plan", "system-characteristics"]).isSome = true ∧
    ((generateOscalSSP d).lookupPath
        ["system-security-plan", "system-implementation"]).isSome = true ∧
    ((generateOscalSSP d).lookupPath
        ["system-security-plan", "control-implementation"]).isSome = true ∧
    (generateOscalSSP d).lookupPath
        ["system-security-plan", "system-characteristics", "system-name"] =
      some (.str n) ∧
    (∃ reqs, (generateOscalSSP d).lookupPath
        ["system-security-plan", "control-implementation",
         "implemented-requirements"] = some (.arr reqs) ∧ reqs ≠ []) ∧
    jsonRoundTrip (generateOscalSSP d) = some (generateOscalSSP d) ∧
    (∀ j ssp, jsonRoundTrip (generateOscalSSP d) = some j →
       j.lookup "system-security-plan" = some ssp →
       (extractData ssp).sysName = some n) := by
  have hreq : implementedRequirements d ≠ [] := by
    unfold implementedRequirements
    cases d.ctrlData <;> simp
  have hname : (generateOscalSSP d).lookupPath
      ["system-security-plan", "system-characteristics", "system-name"] =
      some (.str (orDefault d.sysName "Untitled System")) := rfl
  refine ⟨rfl, rfl, rfl, rfl, ?_, ?_, rfl, ?_⟩
  · rw [hname, hn]
    simp [orDefault, hne]
  · refine ⟨implementedRequirements d, rfl, hreq⟩
  · intro j ssp hj hssp
    rw [jsonRoundTrip, Option.some.injEq] at hj
    subst hj
    have hx : ((generateOscalSSP d).lookup "system-security-plan").map
        (fun s => (extractData s).sysName) =
        some (some (orDefault d.sysName "Untitled System")) := rfl
    rw [hssp] at hx
    simp only [Option.map_some', Option.some.injEq] at hx
    rw [hx, hn]
    simp [orDefault, hne]

/-- Witness for `export_contract`: the near-empty record with only
`sysName = "Bare Minimum"` exports that name and a non-empty
implemented-requirements array. -/
theorem export_contract_witness :
    (generateOscalSSP { sysName := some "Bare Minimum" }).lookupPath
        ["system-security-plan", "system-characteristics", "system-name"] =
      some (.str "Bare Minimum") ∧
    (∃ reqs, (generateOscalSSP { sysName := some "Bare Minimum" }).lookupPath
        ["system-security-plan", "control-implementation",
         "implemented-requirements"] = some (.arr reqs) ∧ reqs ≠ []) :=
  ⟨(export_contract { sysName := some "Bare Minimum" } "Bare Minimum" rfl
      (by decide)).2.2.2.2.1,
   (export_contract { sysName := some "Bare Minimum" } "Bare Minimum" rfl
      (by decide)).2.2.2.2.2.1⟩

end ForgeReporter
